import Mathlib

/-!
Shallow embedding of the WSA C API client (wsa_api.c, newer VRT-based variant)
for verification of its specification.

The command channel is modelled by an oracle environment `Env`:
* `queryResp q`  — the `wsa_resp` that `wsa_send_query` stores for query text `q`
* `cmdResult c`  — the `int16_t` result of `wsa_send_command` for command text `c`
* `parseDouble s` — the shared numeric parsing helper (`to_double`), modelled
  from the spec since `wsa_commons.c` is not among the provided sources; all
  claim-relevant values are integral, so the parsed value is an `Int`
* `streamId` — the stream identifier decoded from the VRT header of the frame
  currently on the data channel
* `iqReadResult` — result of the raw low-level read when the frame is an
  IQ-data frame

Every embedded operation additionally returns the list of channel/parse events
it performed, in order, so that claims about "what was written to the command
channel" and "whether numeric parsing was attempted" are expressible.

Machine integer casts that occur in the C source (`(int16_t)`, `(int32_t)`,
`(int64_t)`, `int64_t → uint64_t`) are modelled explicitly by wrap-around on
`Int`/`Nat`.
-/

/-- Truncating cast to a signed 16-bit integer (C `(int16_t)` cast). -/
def toInt16 (x : Int) : Int := (x + 32768) % 65536 - 32768

/-- Truncating cast to a signed 32-bit integer (C `(int32_t)` cast). -/
def toInt32 (x : Int) : Int := (x + 2147483648) % 4294967296 - 2147483648

/-- Truncating cast to a signed 64-bit integer (C `(int64_t)` cast). -/
def toInt64 (x : Int) : Int := (x + 9223372036854775808) % 18446744073709551616 - 9223372036854775808

/-- Conversion of a signed 64-bit value to `uint64_t` (C implicit conversion
in the call `wsa_verify_freq(dev, freq)` where `freq` is an `int64_t`). -/
def int64ToUInt64 (x : Int) : Nat := (x % 18446744073709551616).toNat

/-- One observable action of an embedded operation: a command written to the
command channel, a query written to the command channel, or an invocation of
the numeric parsing helper on a piece of response text. -/
inductive Event where
  | cmd (s : String)
  | query (s : String)
  | parse (s : String)
deriving DecidableEq, Repr

/-- Model of `struct wsa_resp`: status (`int64_t`, byte count read or negative error)
and the textual output. -/
structure WsaResp where
  status : Int
  output : String

/-- Oracle environment standing for the instrument plus the layers of the
code base (`wsa_lib`, `wsa_commons`, `wsa_client`) that are below the API
functions embedded here. -/
structure Env where
  queryResp : String → WsaResp
  cmdResult : String → Int
  parseDouble : String → Option Int
  streamId : Nat
  iqReadResult : Int

/-! Error codes.  `wsa_error.h` is not among the provided sources; the codes
are modelled from the spec's error taxonomy as distinct negative integers —
only their distinctness and negativity are relied upon. -/

def WSA_ERR_FREQOUTOFBOUND : Int := -301
def WSA_ERR_INVRFGAIN : Int := -302
def WSA_ERR_NOTIQFRAME : Int := -303
def WSA_ERR_SWEEPALREADYRUNNING : Int := -304
def WSA_ERR_SWEEPLISTEMPTY : Int := -305
def WSA_ERR_SWEEPIDOOB : Int := -306
def WSA_ERR_SWEEPMODEUNDEF : Int := -307
def WSA_ERR_RESPUNKNOWN : Int := -308
def WSA_ERR_INVNUMBER : Int := -309
def WSA_ERR_SWEEPENTRYDELETEFAIL : Int := -310

/-! `enum wsa_gain` from `wsa_lib.h`: HIGH = 1, MED, LOW, VLOW. -/

def WSA_GAIN_HIGH : Int := 1
def WSA_GAIN_MED : Int := 2
def WSA_GAIN_LOW : Int := 3
def WSA_GAIN_VLOW : Int := 4

/-- The fields of `struct wsa_descriptor` used by the embedded operations.
Frequencies are `uint64_t` (hence `Nat`), decimation bounds `int32_t`,
`abs_max_amp` a table indexed by gain level. -/
structure WsaDescriptor where
  min_tune_freq : Nat
  max_tune_freq : Nat
  min_decimation : Int
  max_decimation : Int
  abs_max_amp : Int → Int

/-- Embedding of `wsa_verify_freq`: reject a frequency outside the descriptor's range. -/
def wsa_verify_freq (descr : WsaDescriptor) (freq : Nat) : Int :=
  if freq < descr.min_tune_freq ∨ freq > descr.max_tune_freq then
    WSA_ERR_FREQOUTOFBOUND
  else 0

/-- Embedding of `wsa_set_freq`: verify locally, then send `FREQ:CENT <f> Hz`. -/
def wsa_set_freq (env : Env) (descr : WsaDescriptor) (cfreq : Int) :
    Int × List Event :=
  let r := wsa_verify_freq descr (int64ToUInt64 cfreq)
  if r < 0 then (r, [])
  else
    let c := "FREQ:CENT " ++ toString cfreq ++ " Hz\n"
    let res := env.cmdResult c
    if res < 0 then (res, [Event.cmd c]) else (0, [Event.cmd c])

/-- Embedding of `wsa_get_freq`: query `FREQ:CENT?`, short-circuit on status ≤ 0, parse,
validate against the descriptor's tuning range, and store the value.
The middle component is the value written to `*cfreq` (`none` = untouched). -/
def wsa_get_freq (env : Env) (descr : WsaDescriptor) :
    Int × Option Int × List Event :=
  let q := env.queryResp "FREQ:CENT?\n"
  if q.status ≤ 0 then (toInt16 q.status, none, [Event.query "FREQ:CENT?\n"])
  else
    match env.parseDouble q.output with
    | none => (WSA_ERR_RESPUNKNOWN, none,
        [Event.query "FREQ:CENT?\n", Event.parse q.output])
    | some temp =>
      if temp < (descr.min_tune_freq : Int) ∨ temp > (descr.max_tune_freq : Int) then
        (WSA_ERR_RESPUNKNOWN, none,
          [Event.query "FREQ:CENT?\n", Event.parse q.output])
      else
        (0, some (toInt64 temp),
          [Event.query "FREQ:CENT?\n", Event.parse q.output])

/-- Embedding of `wsa_get_decimation`: query `:SENSE:DEC?`, short-circuit on status ≤ 0,
parse, validate (0 = off is allowed besides the descriptor range), store. -/
def wsa_get_decimation (env : Env) (descr : WsaDescriptor) :
    Int × Option Int × List Event :=
  let q := env.queryResp ":SENSE:DEC?\n"
  if q.status ≤ 0 then (toInt16 q.status, none, [Event.query ":SENSE:DEC?\n"])
  else
    match env.parseDouble q.output with
    | none => (WSA_ERR_RESPUNKNOWN, none,
        [Event.query ":SENSE:DEC?\n", Event.parse q.output])
    | some temp =>
      if (temp ≠ 0 ∧ temp < descr.min_decimation) ∨ temp > descr.max_decimation then
        (WSA_ERR_RESPUNKNOWN, none,
          [Event.query ":SENSE:DEC?\n", Event.parse q.output])
      else
        (0, some (toInt32 temp),
          [Event.query ":SENSE:DEC?\n", Event.parse q.output])

/-- Embedding of `wsa_get_sweep_status`: query `SWEEP:LIST:STATUS?`; anything other than
`STOPPED`/`RUNNING` is a protocol error.  The middle component is the string
copied into the caller's buffer (`none` = untouched). -/
def wsa_get_sweep_status (env : Env) : Int × Option String × List Event :=
  let q := env.queryResp "SWEEP:LIST:STATUS?\n"
  if q.status ≤ 0 then
    (toInt16 q.status, none, [Event.query "SWEEP:LIST:STATUS?\n"])
  else if q.output ≠ "STOPPED" ∧ q.output ≠ "RUNNING" then
    (WSA_ERR_SWEEPMODEUNDEF, none, [Event.query "SWEEP:LIST:STATUS?\n"])
  else
    (0, some q.output, [Event.query "SWEEP:LIST:STATUS?\n"])

/-- Embedding of `wsa_get_sweep_entry_size`: query `SWEEP:ENTRY:COUNT?`, parse, store
`(int32_t) temp` into `*size`. -/
def wsa_get_sweep_entry_size (env : Env) : Int × Option Int × List Event :=
  let q := env.queryResp "SWEEP:ENTRY:COUNT?\n"
  if q.status ≤ 0 then
    (toInt16 q.status, none, [Event.query "SWEEP:ENTRY:COUNT?\n"])
  else
    match env.parseDouble q.output with
    | none => (WSA_ERR_RESPUNKNOWN, none,
        [Event.query "SWEEP:ENTRY:COUNT?\n", Event.parse q.output])
    | some temp => (0, some (toInt32 temp),
        [Event.query "SWEEP:ENTRY:COUNT?\n", Event.parse q.output])

/-- Embedding of `wsa_system_abort_capture`: query the sweep status first; if the query
fails or the status is RUNNING, return without writing the abort command;
otherwise send `SYSTEM:ABORT`. -/
def wsa_system_abort_capture (env : Env) : Int × List Event :=
  match wsa_get_sweep_status env with
  | (r, st, t) =>
    if r < 0 then (r, t)
    else if st = some "RUNNING" then (WSA_ERR_SWEEPALREADYRUNNING, t)
    else
      let res := env.cmdResult "SYSTEM:ABORT\n"
      if res < 0 then (res, t ++ [Event.cmd "SYSTEM:ABORT\n"])
      else (0, t ++ [Event.cmd "SYSTEM:ABORT\n"])

/-- Embedding of `wsa_flush_data`: query the sweep status first; if the query fails or the
status is RUNNING, return without flushing; otherwise send `SWEEP:FLUSH`. -/
def wsa_flush_data (env : Env) : Int × List Event :=
  match wsa_get_sweep_status env with
  | (r, st, t) =>
    if r < 0 then (r, t)
    else if st = some "RUNNING" then (WSA_ERR_SWEEPALREADYRUNNING, t)
    else
      let res := env.cmdResult "SWEEP:FLUSH\n"
      if res < 0 then (res, t ++ [Event.cmd "SWEEP:FLUSH\n"])
      else (0, t ++ [Event.cmd "SWEEP:FLUSH\n"])

/-- Embedding of `wsa_sweep_start`: reject if the sweep status is RUNNING, then reject if
the sweep list size is ≤ 0, and only then send `SWEEP:LIST:START`. -/
def wsa_sweep_start (env : Env) : Int × List Event :=
  match wsa_get_sweep_status env with
  | (r, st, t1) =>
    if r < 0 then (r, t1)
    else if st = some "RUNNING" then (WSA_ERR_SWEEPALREADYRUNNING, t1)
    else
      match wsa_get_sweep_entry_size env with
      | (r2, sz, t2) =>
        if r2 < 0 then (r2, t1 ++ t2)
        else if sz.getD 0 ≤ 0 then (WSA_ERR_SWEEPLISTEMPTY, t1 ++ t2)
        else
          let res := env.cmdResult "SWEEP:LIST:START\n"
          if res < 0 then (res, t1 ++ t2 ++ [Event.cmd "SWEEP:LIST:START\n"])
          else (0, t1 ++ t2 ++ [Event.cmd "SWEEP:LIST:START\n"])

/-- Embedding of `wsa_sweep_resume`: same guards as `wsa_sweep_start`, then
`SWEEP:LIST:RESUME`. -/
def wsa_sweep_resume (env : Env) : Int × List Event :=
  match wsa_get_sweep_status env with
  | (r, st, t1) =>
    if r < 0 then (r, t1)
    else if st = some "RUNNING" then (WSA_ERR_SWEEPALREADYRUNNING, t1)
    else
      match wsa_get_sweep_entry_size env with
      | (r2, sz, t2) =>
        if r2 < 0 then (r2, t1 ++ t2)
        else if sz.getD 0 ≤ 0 then (WSA_ERR_SWEEPLISTEMPTY, t1 ++ t2)
        else
          let res := env.cmdResult "SWEEP:LIST:RESUME\n"
          if res < 0 then (res, t1 ++ t2 ++ [Event.cmd "SWEEP:LIST:RESUME\n"])
          else (0, t1 ++ t2 ++ [Event.cmd "SWEEP:LIST:RESUME\n"])

/-- Embedding of `wsa_sweep_stop`: send `SWEEP:LIST:STOP`, flush, then drain left-over
packets from the data socket until the wall clock passes a fixed deadline.
`recv i` is the result of the `i`-th residual `wsa_sock_recv_data` call and
`ticks` the number of loop iterations the clock allows; the C code discards
each `recv` result (the error check is commented out) and returns 0. -/
def wsa_sweep_stop (env : Env) (recv : Nat → Int) (ticks : Nat) :
    Int × List Event :=
  let r := env.cmdResult "SWEEP:LIST:STOP\n"
  if r < 0 then (r, [Event.cmd "SWEEP:LIST:STOP\n"])
  else
    match wsa_flush_data env with
    | (fr, ft) =>
      if fr < 0 then (fr, Event.cmd "SWEEP:LIST:STOP\n" :: ft)
      else
        let _drained := (List.range ticks).foldl (fun _ i => recv i) r
        (0, Event.cmd "SWEEP:LIST:STOP\n" :: ft)

/-- Embedding of `wsa_sweep_entry_copy`.  Faithful to the source: the local `size`
variable is initialised to 0 and the bounds check `id < 0 || id > size` runs
BEFORE the list size is queried, so it compares `id` against 0. -/
def wsa_sweep_entry_copy (env : Env) (id : Int) : Int × List Event :=
  let size : Int := 0
  if id < 0 ∨ id > size then (WSA_ERR_SWEEPIDOOB, [])
  else
    match wsa_get_sweep_entry_size env with
    | (r, sz, t) =>
      if r < 0 then (r, t)
      else if sz.getD size = 0 then (WSA_ERR_SWEEPLISTEMPTY, t)
      else
        let c := "SWEEP:ENTRY:COPY " ++ toString id ++ "\n"
        (env.cmdResult c, t ++ [Event.cmd c])

/-- Embedding of `wsa_get_abs_max_amp`: range-guard the gain, else read the descriptor
table.  The middle component is the value written to `*value`. -/
def wsa_get_abs_max_amp (descr : WsaDescriptor) (gain : Int) :
    Int × Option Int :=
  if gain < WSA_GAIN_VLOW ∨ gain > WSA_GAIN_HIGH then
    (WSA_ERR_INVRFGAIN, none)
  else
    (0, some (descr.abs_max_amp gain))

/-! Stream identifiers.  Their numeric values live in headers not among the
provided sources; only distinctness matters here. -/

/-- Modelled from the spec: the IQ-data stream identifier
(`IF_DATA_STREAM_ID`), whose numeric value is defined in a header that is not
among the provided sources. -/
def IF_DATA_STREAM_ID : Nat := 1

/-- Modelled from the spec: the receiver context stream identifier. -/
def RECEIVER_STREAM_ID : Nat := 2

/-- Modelled from the spec: the digitizer context stream identifier. -/
def DIGITIZER_STREAM_ID : Nat := 3

/-- Modelled from the spec: `wsa_read_vrt_packet_raw` is declared in
`wsa_lib` whose implementation is not among the provided sources.  Per spec
§4.4, it decodes the header; a receiver/digitizer context frame is decoded
and returned, an IQ-data frame proceeds to payload and trailer (result given
by the oracle), and a header whose stream identifier matches no known
identifier yields the "not an IQ frame" error. -/
def wsa_read_vrt_packet_raw (env : Env) : Int :=
  if env.streamId = RECEIVER_STREAM_ID ∨ env.streamId = DIGITIZER_STREAM_ID then 0
  else if env.streamId = IF_DATA_STREAM_ID then env.iqReadResult
  else WSA_ERR_NOTIQFRAME

/-- Embedding of `wsa_read_vrt_packet`: run the raw read; on a "not an IQ frame" failure
invoke `wsa_system_abort_capture` (its result is discarded) and return the
original error; on any other failure return it directly; on success decode
the IQ payload when the stream is IF data (the decode result is explicitly
not relied upon) and return 0. -/
def wsa_read_vrt_packet (env : Env) : Int × List Event :=
  let r := wsa_read_vrt_packet_raw env
  if r < 0 then
    if r = WSA_ERR_NOTIQFRAME then
      match wsa_system_abort_capture env with
      | (_, t) => (r, t)
    else (r, [])
  else (0, [])

/-- C `strstr(hay, needle) != NULL`: `needle` occurs as a substring of
`hay`. -/
def strstrContains (hay needle : String) : Bool :=
  (List.range (hay.data.length + 1)).any fun i =>
    needle.data.isPrefixOf (hay.data.drop i)

/-- Embedding of `gain_rf_strtonum`: convert an RF-gain string to the `wsa_gain`
enumeration via successive `strstr` tests; an unrecognized string yields
`(enum wsa_gain) NULL`, i.e. 0. -/
def gain_rf_strtonum (s : String) : Int :=
  if strstrContains s "HIGH" then WSA_GAIN_HIGH
  else if strstrContains s "MED" then WSA_GAIN_MED
  else if strstrContains s "VLOW" then WSA_GAIN_VLOW
  else if strstrContains s "LOW" then WSA_GAIN_LOW
  else 0

/-- Split a character list at every comma (keeping empty pieces). -/
def splitCommas : List Char → List (List Char)
  | [] => [[]]
  | c :: rest =>
    if c = ',' then [] :: splitCommas rest
    else
      match splitCommas rest with
      | [] => [[c]]
      | t :: ts => (c :: t) :: ts

/-- The token sequence produced by repeated `strtok(_, ",")` on a record:
split on commas, empty pieces skipped (`strtok` treats runs of delimiters
as one and never yields an empty token). -/
def cTokens (s : String) : List String :=
  ((splitCommas s.data).map String.mk).filter (fun t => t ≠ "")

/-- The `i`-th `strtok` result, when a token is still available. -/
def tokAt (toks : List String) (i : Nat) : Option String := toks.get? i

/-- The `i`-th `strtok` result as the string handed to `strstr`/`to_double`
(a missing token, i.e. a NULL pointer in C, is represented by `""`). -/
def tokStr (toks : List String) (i : Nat) : String := (tokAt toks i).getD ""

/-- The helper `to_double` applied to the `i`-th token; a missing token (NULL) is
modelled as a parse failure. -/
def readField (p : String → Option Int) (toks : List String) (i : Nat) :
    Option Int :=
  match tokAt toks i with
  | none => none
  | some s => p s

/-- Model of `struct wsa_sweep_list`: the caller-provided output record of
`wsa_sweep_entry_read`.  `fshift` is a float in C; every claim-relevant value
is integral, so all fields are modelled as `Int`. -/
structure WsaSweepList where
  start_freq : Int
  stop_freq : Int
  fstep : Int
  fshift : Int
  decimation_rate : Int
  ant_port : Int
  gain_rf : Int
  gain_if : Int
  samples_per_packet : Int
  packets_per_block : Int
  dwell_seconds : Int
  dwell_microseconds : Int
  trigger_enable : Int
  trigger_start_freq : Int
  trigger_stop_freq : Int
  trigger_amplitude : Int
deriving DecidableEq, Repr

/-- The positional field parsing of `wsa_sweep_entry_read` over the comma
tokens of the response record, mirroring the source statement by statement.
Returns the status, the (partially) updated record, the number of `strtok`
calls performed, and the `to_double` parse events. -/
def parseSweepRecord (p : String → Option Int) (toks : List String)
    (sl0 : WsaSweepList) : Int × WsaSweepList × Nat × List Event :=
  match readField p toks 0 with
  | none => (WSA_ERR_RESPUNKNOWN, sl0, 1, [Event.parse (tokStr toks 0)])
  | some v0 =>
  let sl1 := { sl0 with start_freq := toInt64 v0 }
  match readField p toks 1 with
  | none => (WSA_ERR_RESPUNKNOWN, sl1, 2,
      [Event.parse (tokStr toks 0), Event.parse (tokStr toks 1)])
  | some v1 =>
  let sl2 := { sl1 with stop_freq := toInt64 v1 }
  match readField p toks 2 with
  | none => (WSA_ERR_RESPUNKNOWN, sl2, 3,
      (List.range 3).map (fun i => Event.parse (tokStr toks i)))
  | some v2 =>
  let sl3 := { sl2 with fstep := toInt64 v2 }
  match readField p toks 3 with
  | none => (WSA_ERR_RESPUNKNOWN, sl3, 4,
      (List.range 4).map (fun i => Event.parse (tokStr toks i)))
  | some v3 =>
  let sl4 := { sl3 with fshift := v3 }
  match readField p toks 4 with
  | none => (WSA_ERR_RESPUNKNOWN, sl4, 5,
      (List.range 5).map (fun i => Event.parse (tokStr toks i)))
  | some v4 =>
  let sl5 := { sl4 with decimation_rate := toInt32 v4 }
  match readField p toks 5 with
  | none => (WSA_ERR_RESPUNKNOWN, sl5, 6,
      (List.range 6).map (fun i => Event.parse (tokStr toks i)))
  | some v5 =>
  let sl6 := { sl5 with ant_port := toInt32 v5 }
  -- field 6: RF gain, converted by gain_rf_strtonum, no to_double call
  let sl7 := { sl6 with gain_rf := gain_rf_strtonum (tokStr toks 6) }
  let evs6 : List Event := (List.range 6).map (fun i => Event.parse (tokStr toks i))
  match readField p toks 7 with
  | none => (WSA_ERR_RESPUNKNOWN, sl7, 8, evs6 ++ [Event.parse (tokStr toks 7)])
  | some v7 =>
  let sl8 := { sl7 with gain_if := toInt32 v7 }
  match readField p toks 8 with
  | none => (WSA_ERR_RESPUNKNOWN, sl8, 9,
      evs6 ++ [Event.parse (tokStr toks 7), Event.parse (tokStr toks 8)])
  | some v8 =>
  let sl9 := { sl8 with samples_per_packet := toInt16 v8 }
  match readField p toks 9 with
  | none => (WSA_ERR_RESPUNKNOWN, sl9, 10,
      evs6 ++ ((List.range 3).map (fun i => Event.parse (tokStr toks (7 + i)))))
  | some v9 =>
  let sl10 := { sl9 with packets_per_block := toInt32 v9 }
  match readField p toks 10 with
  | none => (WSA_ERR_RESPUNKNOWN, sl10, 11,
      evs6 ++ ((List.range 4).map (fun i => Event.parse (tokStr toks (7 + i)))))
  | some v10 =>
  let sl11 := { sl10 with dwell_seconds := toInt32 v10 }
  match readField p toks 11 with
  | none => (WSA_ERR_RESPUNKNOWN, sl11, 12,
      evs6 ++ ((List.range 5).map (fun i => Event.parse (tokStr toks (7 + i)))))
  | some v11 =>
  let sl12 := { sl11 with dwell_microseconds := toInt32 v11 }
  let evs12 : List Event :=
    evs6 ++ ((List.range 5).map (fun i => Event.parse (tokStr toks (7 + i))))
  -- field 12: trigger type, tested with strstr against "LEVEL" then "NONE"
  let trig := tokStr toks 12
  if strstrContains trig "LEVEL" then
    let slL := { sl12 with trigger_enable := 1 }
    match readField p toks 13 with
    | none => (WSA_ERR_RESPUNKNOWN, slL, 14, evs12 ++ [Event.parse (tokStr toks 13)])
    | some w0 =>
    let slL1 := { slL with trigger_start_freq := toInt64 w0 }
    match readField p toks 14 with
    | none => (WSA_ERR_RESPUNKNOWN, slL1, 15,
        evs12 ++ [Event.parse (tokStr toks 13), Event.parse (tokStr toks 14)])
    | some w1 =>
    let slL2 := { slL1 with trigger_stop_freq := toInt64 w1 }
    match readField p toks 15 with
    | none => (WSA_ERR_RESPUNKNOWN, slL2, 16,
        evs12 ++ ((List.range 3).map (fun i => Event.parse (tokStr toks (13 + i)))))
    | some w2 =>
    (0, { slL2 with trigger_amplitude := toInt32 w2 }, 16,
        evs12 ++ ((List.range 3).map (fun i => Event.parse (tokStr toks (13 + i)))))
  else if strstrContains trig "NONE" then
    (0, { sl12 with trigger_enable := 0 }, 13, evs12)
  else
    (0, sl12, 13, evs12)

/-- Embedding of `wsa_sweep_entry_read`: reject a negative id locally, query
`SWEEP:ENTRY:READ? <id>`, short-circuit on status ≤ 0, then parse the comma
record positionally into the caller's structure. -/
def wsa_sweep_entry_read (env : Env) (id : Int) (sl0 : WsaSweepList) :
    Int × WsaSweepList × Nat × List Event :=
  if id < 0 then (WSA_ERR_INVNUMBER, sl0, 0, [])
  else
    let qs := "SWEEP:ENTRY:READ? " ++ toString id ++ "\n"
    let q := env.queryResp qs
    if q.status ≤ 0 then (toInt16 q.status, sl0, 0, [Event.query qs])
    else
      match parseSweepRecord env.parseDouble (cTokens q.output) sl0 with
      | (r, sl, n, evs) => (r, sl, n, Event.query qs :: evs)

/-! Concrete environments used to witness the universally quantified
theorems on sample instrument states. -/

/-- A WSA4000/RFE0560-like descriptor (bounds as in `wsa_lib.h`). -/
def descr0 : WsaDescriptor :=
  ⟨100000, 11000000000, 16, 1023, fun _ => -15⟩

/-- Instrument whose sweep-status query reports RUNNING; the data channel
holds a frame with unrecognized stream identifier 99. -/
def envRunning : Env :=
  ⟨fun _ => ⟨8, "RUNNING"⟩, fun _ => 0, fun _ => none, 99, 0⟩

/-- Instrument whose sweep-status query reports STOPPED; the data channel
holds a frame with unrecognized stream identifier 99. -/
def envStopped : Env :=
  ⟨fun _ => ⟨8, "STOPPED"⟩, fun _ => 0, fun _ => none, 99, 0⟩

/-- Instrument reporting STOPPED whose sweep list is empty (entry count
query answers 0). -/
def envEmptyList : Env :=
  ⟨fun s => if s = "SWEEP:ENTRY:COUNT?\n" then ⟨2, "0"⟩ else ⟨8, "STOPPED"⟩,
   fun _ => 0, fun s => if s = "0" then some 0 else none, 0, 0⟩

/-- Instrument whose sweep list holds exactly one entry (entry count query
answers 1). -/
def envOneEntry : Env :=
  ⟨fun s => if s = "SWEEP:ENTRY:COUNT?\n" then ⟨2, "1"⟩ else ⟨8, "STOPPED"⟩,
   fun _ => 0, fun s => if s = "1" then some 1 else none, 0, 0⟩

/-- Instrument that stores and echoes a centre frequency of 2.4 GHz. -/
def envFreqEcho : Env :=
  ⟨fun _ => ⟨11, "2400000000"⟩, fun _ => 0,
   fun s => if s = "2400000000" then some 2400000000 else none, 0, 0⟩

/-- Instrument on which every query fails with a channel-read error. -/
def envQueryFail : Env :=
  ⟨fun _ => ⟨-7, ""⟩, fun _ => 0, fun _ => none, 0, 0⟩

/-- Parse oracle for the decimal fields of the sample sweep-entry records. -/
def sampleParse : String → Option Int := fun s =>
  if s = "2400000000" then some 2400000000
  else if s = "2500000000" then some 2500000000
  else if s = "100000" then some 100000
  else if s = "0" then some 0
  else if s = "4" then some 4
  else if s = "1" then some 1
  else if s = "256" then some 256
  else none

/-- Instrument whose sweep-entry-read query answers a record whose trigger
type is `NONE`. -/
def envEntryNone : Env :=
  ⟨fun _ => ⟨60, "2400000000,2500000000,100000,0,4,1,HIGH,0,256,1,1,0,NONE"⟩,
   fun _ => 0, sampleParse, 0, 0⟩

/-- Instrument whose sweep-entry-read query answers a record whose trigger
type token is the unrecognized string `FOO`. -/
def envEntryFoo : Env :=
  ⟨fun _ => ⟨59, "2400000000,2500000000,100000,0,4,1,HIGH,0,256,1,1,0,FOO"⟩,
   fun _ => 0, sampleParse, 0, 0⟩

/-- A sweep-list record prefilled with the sentinel 9 in every field, to
observe which fields an operation writes. -/
def slInit : WsaSweepList := ⟨9, 9, 9, 9, 9, 9, 9, 9, 9, 9, 9, 9, 9, 9, 9, 9⟩

/-! Helper lemmas about the machine-integer casts. -/

theorem toInt16_eq_of_bounds {x : Int} (h1 : -32768 ≤ x) (h2 : x < 32768) :
    toInt16 x = x := by
  unfold toInt16; omega

theorem toInt32_eq_of_bounds {x : Int} (h1 : -2147483648 ≤ x)
    (h2 : x < 2147483648) : toInt32 x = x := by
  unfold toInt32; omega

theorem toInt64_eq_of_bounds {x : Int} (h1 : -9223372036854775808 ≤ x)
    (h2 : x < 9223372036854775808) : toInt64 x = x := by
  unfold toInt64; omega

theorem int64ToUInt64_nonneg {x : Int} (h1 : 0 ≤ x)
    (h2 : x < 18446744073709551616) : int64ToUInt64 x = x.toNat := by
  unfold int64ToUInt64; omega

theorem int64ToUInt64_neg {x : Int} (h1 : -9223372036854775808 ≤ x)
    (h2 : x < 0) : 9223372036854775808 ≤ int64ToUInt64 x := by
  unfold int64ToUInt64; omega

/-- C8: every value of the `wsa_gain` enumeration (HIGH = 1, MED = 2,
LOW = 3, VLOW = 4) satisfies the guard `gain < WSA_GAIN_VLOW || gain >
WSA_GAIN_HIGH` of `wsa_get_abs_max_amp`, so for each of the four enumeration
values the function returns `WSA_ERR_INVRFGAIN` and leaves `*value`
unwritten; the branch reading `abs_max_amp` is unreachable from the
enumeration. -/
theorem wsa_get_abs_max_amp_enum_always_rejected (descr : WsaDescriptor) :
    wsa_get_abs_max_amp descr WSA_GAIN_HIGH = (WSA_ERR_INVRFGAIN, none) ∧
    wsa_get_abs_max_amp descr WSA_GAIN_MED = (WSA_ERR_INVRFGAIN, none) ∧
    wsa_get_abs_max_amp descr WSA_GAIN_LOW = (WSA_ERR_INVRFGAIN, none) ∧
    wsa_get_abs_max_amp descr WSA_GAIN_VLOW = (WSA_ERR_INVRFGAIN, none) :=
  ⟨rfl, rfl, rfl, rfl⟩

/-- C3 (code bug): for EVERY instrument state, `wsa_sweep_entry_copy` at the
valid position 1 returns `WSA_ERR_SWEEPIDOOB` without writing anything to
the command channel: the bounds check `id < 0 || id > size` runs against the
local `size` variable while it still holds its initialiser 0, before the
list size is queried. -/
theorem wsa_sweep_entry_copy_rejects_position_one (env : Env) :
    wsa_sweep_entry_copy env 1 = (WSA_ERR_SWEEPIDOOB, []) := rfl

/-- C6: any frequency outside the descriptor's
`[min_tune_freq, max_tune_freq]` range (negative frequencies included, via
the `int64_t` → `uint64_t` conversion at the call to `wsa_verify_freq`) is
rejected by `wsa_set_freq` with `WSA_ERR_FREQOUTOFBOUND` and nothing is
written to the command channel. -/
theorem wsa_set_freq_out_of_range_rejected (env : Env)
    (descr : WsaDescriptor) (f : Int)
    (hlo : -9223372036854775808 ≤ f) (hhi : f < 9223372036854775808)
    (hdescr : descr.max_tune_freq < 9223372036854775808)
    (hout : f < (descr.min_tune_freq : Int) ∨ (descr.max_tune_freq : Int) < f) :
    wsa_set_freq env descr f = (WSA_ERR_FREQOUTOFBOUND, []) := by
  have hverify : wsa_verify_freq descr (int64ToUInt64 f) =
      WSA_ERR_FREQOUTOFBOUND := by
    unfold wsa_verify_freq int64ToUInt64
    rw [if_pos]
    omega
  simp only [wsa_set_freq, hverify]
  norm_num [WSA_ERR_FREQOUTOFBOUND]

/-- Witness for C6 at a concrete negative frequency on a WSA4000-like
descriptor. -/
theorem wsa_set_freq_out_of_range_rejected_witness :
    wsa_set_freq envFreqEcho descr0 (-1) = (WSA_ERR_FREQOUTOFBOUND, []) :=
  wsa_set_freq_out_of_range_rejected envFreqEcho descr0 (-1)
    (by norm_num) (by norm_num) (by norm_num [descr0])
    (Or.inl (by norm_num [descr0]))

/-- C2: `wsa_sweep_start` is rejected with `WSA_ERR_SWEEPALREADYRUNNING`
whenever the sweep-status query answers RUNNING, and with
`WSA_ERR_SWEEPLISTEMPTY` whenever the status is STOPPED and the sweep-list
size query parses to 0; in both rejection cases no `SWEEP:LIST:START`
command is written to the command channel. -/
theorem wsa_sweep_start_rejections (env : Env) :
    ((0 < (env.queryResp "SWEEP:LIST:STATUS?\n").status ∧
        (env.queryResp "SWEEP:LIST:STATUS?\n").output = "RUNNING") →
      wsa_sweep_start env =
        (WSA_ERR_SWEEPALREADYRUNNING, [Event.query "SWEEP:LIST:STATUS?\n"]) ∧
      (wsa_sweep_start env).2.count (Event.cmd "SWEEP:LIST:START\n") = 0) ∧
    ((0 < (env.queryResp "SWEEP:LIST:STATUS?\n").status ∧
        (env.queryResp "SWEEP:LIST:STATUS?\n").output = "STOPPED" ∧
        0 < (env.queryResp "SWEEP:ENTRY:COUNT?\n").status ∧
        env.parseDouble (env.queryResp "SWEEP:ENTRY:COUNT?\n").output = some 0) →
      wsa_sweep_start env =
        (WSA_ERR_SWEEPLISTEMPTY,
          [Event.query "SWEEP:LIST:STATUS?\n", Event.query "SWEEP:ENTRY:COUNT?\n",
           Event.parse (env.queryResp "SWEEP:ENTRY:COUNT?\n").output]) ∧
      (wsa_sweep_start env).2.count (Event.cmd "SWEEP:LIST:START\n") = 0) := by
  constructor
  · rintro ⟨h1, h2⟩
    have hgs : wsa_get_sweep_status env =
        (0, some "RUNNING", [Event.query "SWEEP:LIST:STATUS?\n"]) := by
      simp only [wsa_get_sweep_status, h2]
      rw [if_neg (by omega)]
      norm_num
    have hs : wsa_sweep_start env =
        (WSA_ERR_SWEEPALREADYRUNNING, [Event.query "SWEEP:LIST:STATUS?\n"]) := by
      simp only [wsa_sweep_start, hgs]
      norm_num
    refine ⟨hs, ?_⟩
    rw [hs]
    rfl
  · rintro ⟨h1, h2, h3, h4⟩
    have hgs : wsa_get_sweep_status env =
        (0, some "STOPPED", [Event.query "SWEEP:LIST:STATUS?\n"]) := by
      simp only [wsa_get_sweep_status, h2]
      rw [if_neg (by omega)]
      norm_num
    have hsz : wsa_get_sweep_entry_size env =
        (0, some 0,
          [Event.query "SWEEP:ENTRY:COUNT?\n",
           Event.parse (env.queryResp "SWEEP:ENTRY:COUNT?\n").output]) := by
      simp only [wsa_get_sweep_entry_size, h4]
      rw [if_neg (by omega)]
      norm_num [toInt32]
    have hs : wsa_sweep_start env =
        (WSA_ERR_SWEEPLISTEMPTY,
          [Event.query "SWEEP:LIST:STATUS?\n", Event.query "SWEEP:ENTRY:COUNT?\n",
           Event.parse (env.queryResp "SWEEP:ENTRY:COUNT?\n").output]) := by
      simp only [wsa_sweep_start, hgs, hsz]
      norm_num
      exact fun hc => absurd hc (by decide)
    refine ⟨hs, ?_⟩
    rw [hs]
    rfl

/-- Witness for C2: a RUNNING instrument and a STOPPED instrument with an
empty sweep list. -/
theorem wsa_sweep_start_rejections_witness :
    (wsa_sweep_start envRunning =
      (WSA_ERR_SWEEPALREADYRUNNING, [Event.query "SWEEP:LIST:STATUS?\n"])) ∧
    (wsa_sweep_start envEmptyList =
      (WSA_ERR_SWEEPLISTEMPTY,
        [Event.query "SWEEP:LIST:STATUS?\n", Event.query "SWEEP:ENTRY:COUNT?\n",
         Event.parse "0"])) :=
  ⟨((wsa_sweep_start_rejections envRunning).1 ⟨by decide, by decide⟩).1,
   ((wsa_sweep_start_rejections envEmptyList).2
      ⟨by decide, by decide, by decide, by decide⟩).1⟩

/-- C10: once the `SWEEP:LIST:STOP` command and the flush inside
`wsa_sweep_stop` have succeeded, the function returns 0 whatever the results
of the residual data-channel reads in its drain loop and however many loop
iterations the wall-clock window allows: the result and the command-channel
trace are independent of both. -/
theorem wsa_sweep_stop_drain_discard (env : Env) (recv recv' : Nat → Int)
    (ticks ticks' : Nat)
    (hstop : 0 ≤ env.cmdResult "SWEEP:LIST:STOP\n")
    (hflush : 0 ≤ (wsa_flush_data env).1) :
    wsa_sweep_stop env recv ticks =
      (0, Event.cmd "SWEEP:LIST:STOP\n" :: (wsa_flush_data env).2) ∧
    wsa_sweep_stop env recv ticks = wsa_sweep_stop env recv' ticks' := by
  have h : ∀ (r : Nat → Int) (t : Nat), wsa_sweep_stop env r t =
      (0, Event.cmd "SWEEP:LIST:STOP\n" :: (wsa_flush_data env).2) := by
    intro r t
    rcases hfd : wsa_flush_data env with ⟨fr, ft⟩
    have hfr : 0 ≤ fr := by rw [hfd] at hflush; exact hflush
    simp only [wsa_sweep_stop, hfd]
    rw [if_neg (not_lt.mpr hstop), if_neg (not_lt.mpr hfr)]
  exact ⟨h recv ticks, (h recv ticks).trans (h recv' ticks').symm⟩

/-- Witness for C10: a STOPPED instrument; two drain scenarios that differ
in both the read results (one failing, one succeeding) and the length of the
wall-clock window produce the same successful outcome. -/
theorem wsa_sweep_stop_drain_discard_witness :
    wsa_sweep_stop envStopped (fun _ => -5) 3 =
      (0, Event.cmd "SWEEP:LIST:STOP\n" :: (wsa_flush_data envStopped).2) ∧
    wsa_sweep_stop envStopped (fun _ => -5) 3 =
      wsa_sweep_stop envStopped (fun _ => 7) 0 :=
  wsa_sweep_stop_drain_discard envStopped (fun _ => -5) (fun _ => 7) 3 0
    (by decide) (by decide)

/-- C4: for a frequency within the descriptor's tuning range, under the
assumption that the instrument stores and echoes the value it was sent
(the `FREQ:CENT?` reply parses back to `f`) and the command write succeeds,
`wsa_set_freq f` succeeds and a subsequent `wsa_get_freq` returns exactly
`f`. -/
theorem wsa_freq_round_trip (env : Env) (descr : WsaDescriptor) (f : Int)
    (hmin : (descr.min_tune_freq : Int) ≤ f)
    (hmax : f ≤ (descr.max_tune_freq : Int))
    (hm63 : descr.max_tune_freq < 9223372036854775808)
    (hcmd : 0 ≤ env.cmdResult ("FREQ:CENT " ++ toString f ++ " Hz\n"))
    (hqs : 0 < (env.queryResp "FREQ:CENT?\n").status)
    (hecho : env.parseDouble (env.queryResp "FREQ:CENT?\n").output = some f) :
    wsa_set_freq env descr f =
      (0, [Event.cmd ("FREQ:CENT " ++ toString f ++ " Hz\n")]) ∧
    wsa_get_freq env descr =
      (0, some f,
        [Event.query "FREQ:CENT?\n",
         Event.parse (env.queryResp "FREQ:CENT?\n").output]) := by
  have hf0 : 0 ≤ f := le_trans (by positivity) hmin
  constructor
  · have hverify : wsa_verify_freq descr (int64ToUInt64 f) = 0 := by
      unfold wsa_verify_freq int64ToUInt64
      rw [if_neg]
      omega
    simp only [wsa_set_freq, hverify]
    rw [if_neg (by norm_num), if_neg (not_lt.mpr hcmd)]
  · simp only [wsa_get_freq, hecho]
    rw [if_neg (by omega), if_neg (by omega),
      toInt64_eq_of_bounds (by omega) (by omega)]

/-- Witness for C4 at 2.4 GHz on a WSA4000-like descriptor with an echoing
instrument. -/
theorem wsa_freq_round_trip_witness :
    wsa_set_freq envFreqEcho descr0 2400000000 =
      (0, [Event.cmd ("FREQ:CENT " ++ toString (2400000000 : Int) ++ " Hz\n")]) ∧
    wsa_get_freq envFreqEcho descr0 =
      (0, some 2400000000,
        [Event.query "FREQ:CENT?\n", Event.parse "2400000000"]) :=
  wsa_freq_round_trip envFreqEcho descr0 2400000000
    (by norm_num [descr0]) (by norm_num [descr0]) (by norm_num [descr0])
    (by decide) (by decide) (by decide)

/-- C5: when `wsa_send_query` stores a status ≤ 0 (within `int16_t` range,
as every channel status is), each query-based getter returns that status at
once, performs no numeric parsing of the response text (no parse event in
its trace), and leaves its output parameter untouched — shown for
`wsa_get_freq`, `wsa_get_decimation` and `wsa_sweep_entry_read`. -/
theorem wsa_query_failure_short_circuits (env : Env) (descr : WsaDescriptor)
    (id : Int) (sl0 : WsaSweepList)
    (hid : 0 ≤ id)
    (hf : (env.queryResp "FREQ:CENT?\n").status ≤ 0)
    (hf16 : -32768 ≤ (env.queryResp "FREQ:CENT?\n").status)
    (hd : (env.queryResp ":SENSE:DEC?\n").status ≤ 0)
    (hd16 : -32768 ≤ (env.queryResp ":SENSE:DEC?\n").status)
    (hr : (env.queryResp ("SWEEP:ENTRY:READ? " ++ toString id ++ "\n")).status ≤ 0)
    (hr16 : -32768 ≤
      (env.queryResp ("SWEEP:ENTRY:READ? " ++ toString id ++ "\n")).status) :
    wsa_get_freq env descr =
      ((env.queryResp "FREQ:CENT?\n").status, none,
        [Event.query "FREQ:CENT?\n"]) ∧
    wsa_get_decimation env descr =
      ((env.queryResp ":SENSE:DEC?\n").status, none,
        [Event.query ":SENSE:DEC?\n"]) ∧
    wsa_sweep_entry_read env id sl0 =
      ((env.queryResp ("SWEEP:ENTRY:READ? " ++ toString id ++ "\n")).status,
        sl0, 0,
        [Event.query ("SWEEP:ENTRY:READ? " ++ toString id ++ "\n")]) := by
  refine ⟨?_, ?_, ?_⟩
  · simp only [wsa_get_freq]
    rw [if_pos hf, toInt16_eq_of_bounds hf16 (by omega)]
  · simp only [wsa_get_decimation]
    rw [if_pos hd, toInt16_eq_of_bounds hd16 (by omega)]
  · simp only [wsa_sweep_entry_read]
    rw [if_neg (not_lt.mpr hid), if_pos hr,
      toInt16_eq_of_bounds hr16 (by omega)]

/-- Witness for C5: an instrument on which every query fails with status
-7. -/
theorem wsa_query_failure_short_circuits_witness :
    wsa_get_freq envQueryFail descr0 =
      (-7, none, [Event.query "FREQ:CENT?\n"]) ∧
    wsa_get_decimation envQueryFail descr0 =
      (-7, none, [Event.query ":SENSE:DEC?\n"]) ∧
    wsa_sweep_entry_read envQueryFail 0 slInit =
      (-7, slInit, 0,
        [Event.query ("SWEEP:ENTRY:READ? " ++ toString (0 : Int) ++ "\n")]) :=
  wsa_query_failure_short_circuits envQueryFail descr0 0 slInit
    (by decide) (by decide) (by decide) (by decide) (by decide) (by decide)
    (by decide)

/-- The command-channel trace of `wsa_system_abort_capture` when the
sweep-status reply's status is a nonzero `int16` value (a status of exactly
0 makes the C code compare an uninitialized stack buffer, which has no
defined behaviour): the sweep-status query is always written, and
`SYSTEM:ABORT` is written exactly when the query succeeds with the answer
`STOPPED`. -/
theorem wsa_system_abort_capture_trace (env : Env)
    (h16lo : -32768 ≤ (env.queryResp "SWEEP:LIST:STATUS?\n").status)
    (h16hi : (env.queryResp "SWEEP:LIST:STATUS?\n").status ≤ 32767)
    (hnz : (env.queryResp "SWEEP:LIST:STATUS?\n").status ≠ 0) :
    (wsa_system_abort_capture env).2 =
      Event.query "SWEEP:LIST:STATUS?\n" ::
        (if 0 < (env.queryResp "SWEEP:LIST:STATUS?\n").status ∧
            (env.queryResp "SWEEP:LIST:STATUS?\n").output = "STOPPED"
         then [Event.cmd "SYSTEM:ABORT\n"] else []) := by
  rcases hq : env.queryResp "SWEEP:LIST:STATUS?\n" with ⟨st, out⟩
  rw [hq] at h16lo h16hi hnz
  replace h16lo : -32768 ≤ st := h16lo
  replace h16hi : st ≤ 32767 := h16hi
  replace hnz : st ≠ 0 := hnz
  by_cases h1 : st ≤ 0
  · have hgs : wsa_get_sweep_status env =
        (st, none, [Event.query "SWEEP:LIST:STATUS?\n"]) := by
      simp only [wsa_get_sweep_status, hq]
      rw [if_pos h1, toInt16_eq_of_bounds h16lo (by omega)]
    simp only [wsa_system_abort_capture, hgs]
    rw [if_pos (by omega : st < 0),
      if_neg (fun hc => absurd hc.1 (by omega : ¬ 0 < st))]
  · by_cases h2 : out = "STOPPED"
    · subst h2
      have hgs : wsa_get_sweep_status env =
          (0, some "STOPPED", [Event.query "SWEEP:LIST:STATUS?\n"]) := by
        simp only [wsa_get_sweep_status, hq]
        rw [if_neg h1, if_neg (by decide)]
      simp only [wsa_system_abort_capture, hgs]
      rw [if_neg (by norm_num : ¬ (0 : Int) < 0), if_neg (by decide)]
      rw [if_pos (show (0 : Int) < st ∧ True from ⟨by omega, trivial⟩)]
      rw [apply_ite Prod.snd, ite_self]
      rfl
    · by_cases h3 : out = "RUNNING"
      · subst h3
        have hgs : wsa_get_sweep_status env =
            (0, some "RUNNING", [Event.query "SWEEP:LIST:STATUS?\n"]) := by
          simp only [wsa_get_sweep_status, hq]
          rw [if_neg h1, if_neg (by decide)]
        simp only [wsa_system_abort_capture, hgs]
        rw [if_neg (by norm_num : ¬ (0 : Int) < 0), if_pos trivial,
          if_neg (fun hc => absurd hc.2 (by decide))]
      · have hgs : wsa_get_sweep_status env =
            (WSA_ERR_SWEEPMODEUNDEF, none,
              [Event.query "SWEEP:LIST:STATUS?\n"]) := by
          simp only [wsa_get_sweep_status, hq]
          rw [if_neg h1, if_pos ⟨h2, h3⟩]
        simp only [wsa_system_abort_capture, hgs]
        rw [if_pos (by norm_num [WSA_ERR_SWEEPMODEUNDEF]),
          if_neg (fun hc => h2 hc.2)]

/-- C1 (amended): when the frame's stream identifier matches no known
identifier, `wsa_read_vrt_packet` surfaces `WSA_ERR_NOTIQFRAME` to its
caller and invokes the abort-capture routine exactly once before returning;
however the `SYSTEM:ABORT` command reaches the command channel exactly once
only when the sweep-status query inside that routine succeeds with the
answer STOPPED — if the status query fails or answers RUNNING (or an
undefined status string), no abort command is written (shown for nonzero
`int16` query statuses; a status of exactly 0 makes the C routine compare
an uninitialized buffer). -/
theorem wsa_read_vrt_packet_notiq (env : Env)
    (h1 : env.streamId ≠ IF_DATA_STREAM_ID)
    (h2 : env.streamId ≠ RECEIVER_STREAM_ID)
    (h3 : env.streamId ≠ DIGITIZER_STREAM_ID)
    (h16lo : -32768 ≤ (env.queryResp "SWEEP:LIST:STATUS?\n").status)
    (h16hi : (env.queryResp "SWEEP:LIST:STATUS?\n").status ≤ 32767)
    (hnz : (env.queryResp "SWEEP:LIST:STATUS?\n").status ≠ 0) :
    (wsa_read_vrt_packet env).1 = WSA_ERR_NOTIQFRAME ∧
    (wsa_read_vrt_packet env).2 =
      Event.query "SWEEP:LIST:STATUS?\n" ::
        (if 0 < (env.queryResp "SWEEP:LIST:STATUS?\n").status ∧
            (env.queryResp "SWEEP:LIST:STATUS?\n").output = "STOPPED"
         then [Event.cmd "SYSTEM:ABORT\n"] else []) := by
  have htrace := wsa_system_abort_capture_trace env h16lo h16hi hnz
  have hraw : wsa_read_vrt_packet_raw env = WSA_ERR_NOTIQFRAME := by
    unfold wsa_read_vrt_packet_raw
    rw [if_neg (not_or.mpr ⟨h2, h3⟩), if_neg h1]
  rcases ha : wsa_system_abort_capture env with ⟨ar, tr⟩
  rw [ha] at htrace
  simp only [wsa_read_vrt_packet, hraw, ha]
  rw [if_pos trivial]
  exact ⟨rfl, htrace⟩

/-- Counterexample to C1 as stated: a frame with unrecognized stream
identifier 99 read while the instrument's sweep status is RUNNING —
`wsa_read_vrt_packet` does surface `WSA_ERR_NOTIQFRAME`, but the number of
`SYSTEM:ABORT` commands written to the command channel is 0, not 1
(`wsa_system_abort_capture` returns early on a RUNNING status). -/
theorem wsa_read_vrt_packet_abort_not_issued :
    envRunning.streamId ≠ IF_DATA_STREAM_ID ∧
    envRunning.streamId ≠ RECEIVER_STREAM_ID ∧
    envRunning.streamId ≠ DIGITIZER_STREAM_ID ∧
    (wsa_read_vrt_packet envRunning).1 = WSA_ERR_NOTIQFRAME ∧
    ¬ (wsa_read_vrt_packet envRunning).2.count (Event.cmd "SYSTEM:ABORT\n") = 1 ∧
    (wsa_read_vrt_packet envRunning).2.count (Event.cmd "SYSTEM:ABORT\n") = 0 := by
  decide

/-- Witness for C1 (amended): the same unrecognized frame read while the
instrument reports STOPPED — here the abort command is written once. -/
theorem wsa_read_vrt_packet_notiq_witness :
    (wsa_read_vrt_packet envStopped).1 = WSA_ERR_NOTIQFRAME ∧
    (wsa_read_vrt_packet envStopped).2 =
      Event.query "SWEEP:LIST:STATUS?\n" ::
        (if 0 < (envStopped.queryResp "SWEEP:LIST:STATUS?\n").status ∧
            (envStopped.queryResp "SWEEP:LIST:STATUS?\n").output = "STOPPED"
         then [Event.cmd "SYSTEM:ABORT\n"] else []) :=
  wsa_read_vrt_packet_notiq envStopped (by decide) (by decide) (by decide)
    (by decide) (by decide) (by decide)

/-- C7: when the record parsed by `wsa_sweep_entry_read` carries the trigger
type `NONE` (all twelve numeric fields before it parsing correctly), the
call succeeds, sets `trigger_enable` to 0, leaves `trigger_start_freq`,
`trigger_stop_freq` and `trigger_amplitude` untouched, and consumes exactly
13 tokens — nothing past the trigger-type field. -/
theorem wsa_sweep_entry_read_trigger_none (env : Env) (id : Int)
    (sl0 : WsaSweepList) (toks : List String)
    (v0 v1 v2 v3 v4 v5 v7 v8 v9 v10 v11 : Int)
    (hid : 0 ≤ id)
    (hq : 0 < (env.queryResp ("SWEEP:ENTRY:READ? " ++ toString id ++ "\n")).status)
    (htoks : cTokens
      (env.queryResp ("SWEEP:ENTRY:READ? " ++ toString id ++ "\n")).output = toks)
    (h0 : readField env.parseDouble toks 0 = some v0)
    (h1 : readField env.parseDouble toks 1 = some v1)
    (h2 : readField env.parseDouble toks 2 = some v2)
    (h3 : readField env.parseDouble toks 3 = some v3)
    (h4 : readField env.parseDouble toks 4 = some v4)
    (h5 : readField env.parseDouble toks 5 = some v5)
    (h7 : readField env.parseDouble toks 7 = some v7)
    (h8 : readField env.parseDouble toks 8 = some v8)
    (h9 : readField env.parseDouble toks 9 = some v9)
    (h10 : readField env.parseDouble toks 10 = some v10)
    (h11 : readField env.parseDouble toks 11 = some v11)
    (h12 : tokAt toks 12 = some "NONE") :
    (wsa_sweep_entry_read env id sl0).1 = 0 ∧
    (wsa_sweep_entry_read env id sl0).2.1.trigger_enable = 0 ∧
    (wsa_sweep_entry_read env id sl0).2.1.trigger_start_freq =
      sl0.trigger_start_freq ∧
    (wsa_sweep_entry_read env id sl0).2.1.trigger_stop_freq =
      sl0.trigger_stop_freq ∧
    (wsa_sweep_entry_read env id sl0).2.1.trigger_amplitude =
      sl0.trigger_amplitude ∧
    (wsa_sweep_entry_read env id sl0).2.2.1 = 13 := by
  have hid' : ¬ id < 0 := not_lt.mpr hid
  have hq' : ¬ (env.queryResp
      ("SWEEP:ENTRY:READ? " ++ toString id ++ "\n")).status ≤ 0 :=
    not_le.mpr hq
  have hL : strstrContains "NONE" "LEVEL" = false := by decide
  have hN : strstrContains "NONE" "NONE" = true := by decide
  simp [wsa_sweep_entry_read, parseSweepRecord, tokStr, hid', hq', htoks,
    h0, h1, h2, h3, h4, h5, h7, h8, h9, h10, h11, h12, hL, hN]

/-- Witness for C7 on a concrete record ending in `NONE`. -/
theorem wsa_sweep_entry_read_trigger_none_witness :
    (wsa_sweep_entry_read envEntryNone 1 slInit).1 = 0 ∧
    (wsa_sweep_entry_read envEntryNone 1 slInit).2.1.trigger_enable = 0 ∧
    (wsa_sweep_entry_read envEntryNone 1 slInit).2.1.trigger_start_freq =
      slInit.trigger_start_freq ∧
    (wsa_sweep_entry_read envEntryNone 1 slInit).2.1.trigger_stop_freq =
      slInit.trigger_stop_freq ∧
    (wsa_sweep_entry_read envEntryNone 1 slInit).2.1.trigger_amplitude =
      slInit.trigger_amplitude ∧
    (wsa_sweep_entry_read envEntryNone 1 slInit).2.2.1 = 13 :=
  wsa_sweep_entry_read_trigger_none envEntryNone 1 slInit
    ["2400000000", "2500000000", "100000", "0", "4", "1", "HIGH", "0",
     "256", "1", "1", "0", "NONE"]
    2400000000 2500000000 100000 0 4 1 0 256 1 1 0
    (by decide) (by decide) (by decide) (by decide) (by decide) (by decide)
    (by decide) (by decide) (by decide) (by decide) (by decide) (by decide)
    (by decide) (by decide) (by decide)

/-- C9: when the trigger-type token of the record parsed by
`wsa_sweep_entry_read` is neither `LEVEL` nor `NONE` (as a substring), the
function still returns 0 and leaves `trigger_enable` and every trigger
field of the output structure unmodified; the unrecognized token is not
reported as an error, and nothing past it is consumed. -/
theorem wsa_sweep_entry_read_trigger_unknown (env : Env) (id : Int)
    (sl0 : WsaSweepList) (toks : List String) (t : String)
    (v0 v1 v2 v3 v4 v5 v7 v8 v9 v10 v11 : Int)
    (hid : 0 ≤ id)
    (hq : 0 < (env.queryResp ("SWEEP:ENTRY:READ? " ++ toString id ++ "\n")).status)
    (htoks : cTokens
      (env.queryResp ("SWEEP:ENTRY:READ? " ++ toString id ++ "\n")).output = toks)
    (h0 : readField env.parseDouble toks 0 = some v0)
    (h1 : readField env.parseDouble toks 1 = some v1)
    (h2 : readField env.parseDouble toks 2 = some v2)
    (h3 : readField env.parseDouble toks 3 = some v3)
    (h4 : readField env.parseDouble toks 4 = some v4)
    (h5 : readField env.parseDouble toks 5 = some v5)
    (h7 : readField env.parseDouble toks 7 = some v7)
    (h8 : readField env.parseDouble toks 8 = some v8)
    (h9 : readField env.parseDouble toks 9 = some v9)
    (h10 : readField env.parseDouble toks 10 = some v10)
    (h11 : readField env.parseDouble toks 11 = some v11)
    (h12 : tokAt toks 12 = some t)
    (hL : strstrContains t "LEVEL" = false)
    (hN : strstrContains t "NONE" = false) :
    (wsa_sweep_entry_read env id sl0).1 = 0 ∧
    (wsa_sweep_entry_read env id sl0).2.1.trigger_enable =
      sl0.trigger_enable ∧
    (wsa_sweep_entry_read env id sl0).2.1.trigger_start_freq =
      sl0.trigger_start_freq ∧
    (wsa_sweep_entry_read env id sl0).2.1.trigger_stop_freq =
      sl0.trigger_stop_freq ∧
    (wsa_sweep_entry_read env id sl0).2.1.trigger_amplitude =
      sl0.trigger_amplitude ∧
    (wsa_sweep_entry_read env id sl0).2.2.1 = 13 := by
  have hid' : ¬ id < 0 := not_lt.mpr hid
  have hq' : ¬ (env.queryResp
      ("SWEEP:ENTRY:READ? " ++ toString id ++ "\n")).status ≤ 0 :=
    not_le.mpr hq
  simp [wsa_sweep_entry_read, parseSweepRecord, tokStr, hid', hq', htoks,
    h0, h1, h2, h3, h4, h5, h7, h8, h9, h10, h11, h12, hL, hN]

/-- Witness for C9 on a concrete record ending in the token `FOO`. -/
theorem wsa_sweep_entry_read_trigger_unknown_witness :
    (wsa_sweep_entry_read envEntryFoo 1 slInit).1 = 0 ∧
    (wsa_sweep_entry_read envEntryFoo 1 slInit).2.1.trigger_enable =
      slInit.trigger_enable ∧
    (wsa_sweep_entry_read envEntryFoo 1 slInit).2.1.trigger_start_freq =
      slInit.trigger_start_freq ∧
    (wsa_sweep_entry_read envEntryFoo 1 slInit).2.1.trigger_stop_freq =
      slInit.trigger_stop_freq ∧
    (wsa_sweep_entry_read envEntryFoo 1 slInit).2.1.trigger_amplitude =
      slInit.trigger_amplitude ∧
    (wsa_sweep_entry_read envEntryFoo 1 slInit).2.2.1 = 13 :=
  wsa_sweep_entry_read_trigger_unknown envEntryFoo 1 slInit
    ["2400000000", "2500000000", "100000", "0", "4", "1", "HIGH", "0",
     "256", "1", "1", "0", "FOO"] "FOO"
    2400000000 2500000000 100000 0 4 1 0 256 1 1 0
    (by decide) (by decide) (by decide) (by decide) (by decide) (by decide)
    (by decide) (by decide) (by decide) (by decide) (by decide) (by decide)
    (by decide) (by decide) (by decide) (by decide) (by decide)
